import Mathlib

/-! Verification of the travel-form submission service
(repository vamsi-saraswatitravels).

The repository contains several near-duplicate Express entry points:

* `src/src/index.ts` - disk storage, connection at startup, single catch,
  no explicit field validation;
* `src/unnamed/part_000` (first file, called part_000 main below) - memory
  storage, cached connection, explicit field validation, split catches with
  unconditional error details;
* `src/unnamed/part_000` (second file, the serverless variant) - disk
  storage, `dbConnected` flag, schema WITHOUT `required` markers;
* `src/unnamed/part_001` - memory storage, cached connection, no field
  validation, single catch;
* `src/unnamed/part_002` - same handler control flow as part_000 main
  (hardcoded URI and connect options differ);
* `src/unnamed/part_003` - like part_000 main but error details gated on
  `NODE_ENV === "development"` in the connection and save catches.

Each handler below is a shallow embedding of the corresponding source
handler: multipart parsing (multer), validation, connection caching and the
mongoose insert are modelled as pure state-passing functions, with the
outcomes of the external store (connect / insert success) supplied by an
`Env` record of oracles. -/

/-- JavaScript truthiness of an optional text value: `undefined` and the
empty string are falsy, which is exactly what the check `!req.body[field]`
tests in the handlers. -/
def truthy : Option String → Bool
  | none => false
  | some s => s != ""

/-- An uploaded multipart file part as exposed by multer: `fieldname`,
`originalname`, `mimetype`, the buffered bytes (`buffer`, modelled as a
byte list whose length is `size`), and the storage path assigned by the
disk storage engine. -/
structure UploadedFile where
  fieldname : String
  originalname : String
  mimetype : String
  content : List Nat
  path : String
deriving DecidableEq, Repr

/-- The value of `req.files` after
`upload.fields([reviewScreenshot, ticket])`: at most one file per named
part, because both parts are declared with maxCount 1. -/
structure Files where
  reviewScreenshot : Option UploadedFile
  ticket : Option UploadedFile
deriving DecidableEq, Repr

/-- The five scalar form fields of `req.body`; `none` models an absent
field (`undefined`). -/
structure Body where
  name : Option String
  email : Option String
  phone : Option String
  dateOfTravel : Option String
  source : Option String
deriving DecidableEq, Repr

/-- The `requiredFields` array of the validating handlers
(part_000 main lines 127, part_002 line 143, part_003 line 121). -/
def requiredFields : List String := ["name", "email", "phone", "dateOfTravel", "source"]

/-- Look up `req.body[field]` for one of the five known field names. -/
def fieldVal (b : Body) : String → Option String
  | "name" => b.name
  | "email" => b.email
  | "phone" => b.phone
  | "dateOfTravel" => b.dateOfTravel
  | "source" => b.source
  | _ => none

/-- `requiredFields.filter(field => !req.body[field])`
(part_000 main line 128). -/
def missingFields (b : Body) : List String :=
  requiredFields.filter (fun f => !(truthy (fieldVal b f)))

/-- The `allowedTypes` array of every multer `fileFilter` in the repo. -/
def allowedTypes : List String := ["image/jpeg", "image/png", "application/pdf"]

/-- The multer `limits.fileSize` value `5 * 1024 * 1024` used by every
variant. -/
def fileSizeLimit : Nat := 5 * 1024 * 1024

/-- The errors multer can hand to the Express error middleware for the
upload configurations in this repo: the custom `fileFilter` error, the
`LIMIT_FILE_SIZE` error, and `LIMIT_UNEXPECTED_FILE` (unknown field name
or maxCount exceeded). -/
inductive MulterError where
  | invalidFileType
  | limitFileSize
  | limitUnexpectedFile
deriving DecidableEq, Repr

/-- The message carried by each multer error. -/
def multerErrorMessage : MulterError → String
  | MulterError.invalidFileType => "Invalid file type. Only JPEG, PNG and PDF files are allowed."
  | MulterError.limitFileSize => "File too large"
  | MulterError.limitUnexpectedFile => "Unexpected field"

/-- One step per incoming part, in stream order, mirroring multer with
`upload.fields([reviewScreenshot maxCount 1, ticket maxCount 1])`:
unknown field name or an already-filled slot aborts with
`LIMIT_UNEXPECTED_FILE`; then the custom `fileFilter` checks the MIME
type; then the `fileSize` limit is enforced while the part is buffered.
Any failure aborts the whole request with that error. -/
def multerFields : List UploadedFile → Files → Except MulterError Files
  | [], acc => Except.ok acc
  | f :: rest, acc =>
    if f.fieldname = "reviewScreenshot" then
      match acc.reviewScreenshot with
      | some _ => Except.error MulterError.limitUnexpectedFile
      | none =>
        if allowedTypes.contains f.mimetype = false then Except.error MulterError.invalidFileType
        else if fileSizeLimit < f.content.length then Except.error MulterError.limitFileSize
        else multerFields rest { acc with reviewScreenshot := some f }
    else if f.fieldname = "ticket" then
      match acc.ticket with
      | some _ => Except.error MulterError.limitUnexpectedFile
      | none =>
        if allowedTypes.contains f.mimetype = false then Except.error MulterError.invalidFileType
        else if fileSizeLimit < f.content.length then Except.error MulterError.limitFileSize
        else multerFields rest { acc with ticket := some f }
    else Except.error MulterError.limitUnexpectedFile

/-- Run the `upload.fields` middleware on the ordered list of parts of a
multipart request, starting from the empty `req.files` object. -/
def multerParse (parts : List UploadedFile) : Except MulterError Files :=
  multerFields parts { reviewScreenshot := none, ticket := none }

/-- A document of the memory-storage `travelFormSchema`
(part_000 main lines 44-55, part_001, part_002, part_003): scalar fields,
two binary buffers with their MIME types, and the identifier assigned by
the store. The `createdAt` default and the exact BSON identifier format
are abstracted into a numeric `id` assigned at persist time. -/
structure MemRecord where
  id : Option Nat
  name : Option String
  email : Option String
  phone : Option String
  dateOfTravel : Option String
  source : Option String
  reviewScreenshot : Option (List Nat)
  reviewScreenshotType : Option String
  ticket : Option (List Nat)
  ticketType : Option String
deriving DecidableEq, Repr

/-- A document of the disk-storage schema (index.ts lines 55-64 and the
serverless variant lines 309-318): scalar fields plus the two stored file
paths. -/
structure DiskRecord where
  id : Option Nat
  name : Option String
  email : Option String
  phone : Option String
  dateOfTravel : Option String
  source : Option String
  reviewScreenshotPath : Option String
  ticketPath : Option String
deriving DecidableEq, Repr

/-- The `formData` object built by the memory-storage handlers:
`...req.body` plus the two buffers and their MIME types. -/
def mkMemRecord (b : Body) (rs tk : UploadedFile) : MemRecord :=
  { id := none
    name := b.name
    email := b.email
    phone := b.phone
    dateOfTravel := b.dateOfTravel
    source := b.source
    reviewScreenshot := some rs.content
    reviewScreenshotType := some rs.mimetype
    ticket := some tk.content
    ticketType := some tk.mimetype }

/-- The `formData` object built by the disk-storage handlers:
`...req.body` plus the two stored file paths. -/
def mkDiskRecord (b : Body) (rs tk : UploadedFile) : DiskRecord :=
  { id := none
    name := b.name
    email := b.email
    phone := b.phone
    dateOfTravel := b.dateOfTravel
    source := b.source
    reviewScreenshotPath := some rs.path
    ticketPath := some tk.path }

/-- Identifier assignment performed by the store at persist time. -/
def withId (r : MemRecord) (n : Nat) : MemRecord := { r with id := some n }

/-- Identifier assignment for disk-schema documents. -/
def diskWithId (r : DiskRecord) (n : Nat) : DiskRecord := { r with id := some n }

/-- The success payload of the memory-storage handlers:
`...travelForm.toObject()` with `reviewScreenshot` and `ticket` overwritten
by `undefined`, which removes the binary buffers and keeps everything
else. -/
def stripBinary (r : MemRecord) : MemRecord :=
  { r with reviewScreenshot := none, ticket := none }

/-- Mongoose `required` validation for the memory-storage schema: every
scalar path and both buffers and MIME-type strings must be present, and a
required string path rejects the empty string. -/
def memRequiredOk (r : MemRecord) : Bool :=
  truthy r.name && truthy r.email && truthy r.phone && truthy r.dateOfTravel &&
  truthy r.source && r.reviewScreenshot.isSome && truthy r.reviewScreenshotType &&
  r.ticket.isSome && truthy r.ticketType

/-- Mongoose `required` validation for the disk-storage schema of
index.ts (the serverless schema declares no `required` markers and is
modelled separately). -/
def diskRequiredOk (r : DiskRecord) : Bool :=
  truthy r.name && truthy r.email && truthy r.phone && truthy r.dateOfTravel &&
  truthy r.source && truthy r.reviewScreenshotPath && truthy r.ticketPath

/-- Process-wide state of a memory-storage variant: the `cachedDb` module
variable (a numeric connection handle when established) and the stored
collection. `nextId` feeds identifier assignment. -/
structure MemDB where
  cachedDb : Option Nat
  records : List MemRecord
  nextId : Nat
deriving DecidableEq, Repr

/-- Process-wide state of a disk-storage variant: the `dbConnected` flag
of the serverless variant (index.ts connects once at startup) and the
stored collection. -/
structure DiskDB where
  dbConnected : Bool
  records : List DiskRecord
  nextId : Nat
deriving DecidableEq, Repr

/-- Per-request oracle for the external world: whether a fresh connection
attempt would succeed (and with which handle), the message of a failed
attempt, whether the store would accept an insert that passes schema
validation, the message of a rejected insert, and `process.env.NODE_ENV`. -/
structure Env where
  connectOutcome : Option Nat
  connectErrMsg : String
  saveOk : Bool
  saveErrMsg : String
  nodeEnv : String
deriving DecidableEq, Repr

/-- `connectToDatabase` of part_001 lines 62-70 (and, with extra logging,
part_000 main lines 62-93, part_002, part_003): return the cached handle
if present, otherwise attempt a connection; on success cache and return
the new handle, on failure leave the cache untouched and throw. The
middle component records whether a connection-establishment side effect
(an actual `mongoose.connect` call) happened. -/
def connectToDatabase (cachedDb : Option Nat) (outcome : Option Nat) :
    Option Nat × Bool × Except Unit Nat :=
  match cachedDb with
  | some db => (some db, false, Except.ok db)
  | none =>
    match outcome with
    | some h => (some h, true, Except.ok h)
    | none => (none, true, Except.error ())

/-- `connectDB` of the serverless variant (part_000 lines 299-306): a
boolean `dbConnected` flag set only after `mongoose.connect` returns
successfully. The middle component again records whether a connect call
happened. -/
def connectDB (dbConnected : Bool) (outcome : Option Nat) :
    Bool × Bool × Except Unit Unit :=
  if dbConnected then (true, false, Except.ok ())
  else
    match outcome with
    | some _ => (true, true, Except.ok ())
    | none => (false, true, Except.error ())

/-- `new TravelForm(formData); await travelForm.save()` against the
memory-storage schema: schema `required` validation runs first and
rejects with a validation error; a document that validates is accepted or
rejected by the store according to the oracle; an accepted document is
stored with a fresh identifier. -/
def mongooseSaveMem (env : Env) (fd : MemRecord) (st : MemDB) :
    Except String (MemRecord × MemDB) :=
  if memRequiredOk fd = true then
    if env.saveOk = true then
      Except.ok (withId fd st.nextId,
        { st with records := withId fd st.nextId :: st.records, nextId := st.nextId + 1 })
    else Except.error env.saveErrMsg
  else Except.error "TravelForm validation failed"

/-- `save` against the index.ts disk schema (all fields `required`). -/
def mongooseSaveDisk (env : Env) (fd : DiskRecord) (st : DiskDB) :
    Except String (DiskRecord × DiskDB) :=
  if diskRequiredOk fd = true then
    if env.saveOk = true then
      Except.ok (diskWithId fd st.nextId,
        { st with records := diskWithId fd st.nextId :: st.records, nextId := st.nextId + 1 })
    else Except.error env.saveErrMsg
  else Except.error "TravelForm validation failed"

/-- `save` against the serverless schema (part_000 lines 309-318), which
declares NO `required` markers: any document that the store accepts is
persisted, including one with absent scalar fields. -/
def mongooseSaveDiskLoose (env : Env) (fd : DiskRecord) (st : DiskDB) :
    Except String (DiskRecord × DiskDB) :=
  if env.saveOk = true then
    Except.ok (diskWithId fd st.nextId,
      { st with records := diskWithId fd st.nextId :: st.records, nextId := st.nextId + 1 })
  else Except.error env.saveErrMsg

/-- A JSON response of a memory-storage variant. Absent keys are `none`. -/
structure MemResponse where
  status : Nat
  error : Option String := none
  fields : Option (List String) := none
  details : Option String := none
  message : Option String := none
  data : Option MemRecord := none
deriving DecidableEq, Repr

/-- A JSON response of a disk-storage variant (index.ts and the
serverless variant never emit a fields list or a details key). -/
structure DiskResponse where
  status : Nat
  error : Option String := none
  message : Option String := none
  data : Option DiskRecord := none
deriving DecidableEq, Repr

/-- The POST submit-form handler of part_000 main (lines 106-216):
check `req.files`, validate the five scalar fields, connect (split catch
with unconditional `details`), check both named file parts, save (split
catch with unconditional `details`), then answer 201 with the saved
document minus the two buffers. -/
def submitForm_part000 (env : Env) (body : Body) (files : Option Files) (st : MemDB) :
    MemResponse × MemDB :=
  match files with
  | none => ({ status := 400, error := some "No files were uploaded" }, st)
  | some fs =>
    if 0 < (missingFields body).length then
      ({ status := 400, error := some "Missing required fields",
         fields := some (missingFields body) }, st)
    else
      match connectToDatabase st.cachedDb env.connectOutcome with
      | (cache1, _, Except.error _) =>
        ({ status := 500, error := some "Database connection failed",
           details := some ("Database connection failed: " ++ env.connectErrMsg) },
         { st with cachedDb := cache1 })
      | (cache1, _, Except.ok _) =>
        match fs.reviewScreenshot, fs.ticket with
        | some rs, some tk =>
          match mongooseSaveMem env (mkMemRecord body rs tk) { st with cachedDb := cache1 } with
          | Except.ok (saved, st2) =>
            ({ status := 201, message := some "Form submitted successfully",
               data := some (stripBinary saved) }, st2)
          | Except.error msg =>
            ({ status := 500, error := some "Failed to save form data",
               details := some msg }, { st with cachedDb := cache1 })
        | _, _ =>
          ({ status := 400, error := some "Both review screenshot and ticket are required" },
           { st with cachedDb := cache1 })

/-- The POST submit-form handler of part_003 (lines 100-204): identical
control flow to part_000 main, but the connection and save catches gate
`details` on `NODE_ENV === "development"`, and the connection error is
rethrown unwrapped, so the gated detail is the raw connect message. -/
def submitForm_part003 (env : Env) (body : Body) (files : Option Files) (st : MemDB) :
    MemResponse × MemDB :=
  match files with
  | none => ({ status := 400, error := some "No files were uploaded" }, st)
  | some fs =>
    if 0 < (missingFields body).length then
      ({ status := 400, error := some "Missing required fields",
         fields := some (missingFields body) }, st)
    else
      match connectToDatabase st.cachedDb env.connectOutcome with
      | (cache1, _, Except.error _) =>
        ({ status := 500, error := some "Database connection failed",
           details := if env.nodeEnv = "development" then some env.connectErrMsg else none },
         { st with cachedDb := cache1 })
      | (cache1, _, Except.ok _) =>
        match fs.reviewScreenshot, fs.ticket with
        | some rs, some tk =>
          match mongooseSaveMem env (mkMemRecord body rs tk) { st with cachedDb := cache1 } with
          | Except.ok (saved, st2) =>
            ({ status := 201, message := some "Form submitted successfully",
               data := some (stripBinary saved) }, st2)
          | Except.error msg =>
            ({ status := 500, error := some "Failed to save form data",
               details := if env.nodeEnv = "development" then some msg else none },
             { st with cachedDb := cache1 })
        | _, _ =>
          ({ status := 400, error := some "Both review screenshot and ticket are required" },
           { st with cachedDb := cache1 })

/-- The POST submit-form handler of part_001 (lines 83-119): connect
first, check the two named file parts, save, answer 201 with the saved
document minus the two buffers; one single catch turns every thrown
error (connection failure, property access on an undefined `req.files`,
schema validation failure, store rejection) into the same
500 response. -/
def submitForm_part001 (env : Env) (body : Body) (files : Option Files) (st : MemDB) :
    MemResponse × MemDB :=
  match connectToDatabase st.cachedDb env.connectOutcome with
  | (cache1, _, Except.error _) =>
    ({ status := 500, error := some "Failed to submit form" }, { st with cachedDb := cache1 })
  | (cache1, _, Except.ok _) =>
    match files with
    | none =>
      ({ status := 500, error := some "Failed to submit form" }, { st with cachedDb := cache1 })
    | some fs =>
      match fs.reviewScreenshot, fs.ticket with
      | some rs, some tk =>
        match mongooseSaveMem env (mkMemRecord body rs tk) { st with cachedDb := cache1 } with
        | Except.ok (saved, st2) =>
          ({ status := 201, message := some "Form submitted successfully",
             data := some (stripBinary saved) }, st2)
        | Except.error _ =>
          ({ status := 500, error := some "Failed to submit form" },
           { st with cachedDb := cache1 })
      | _, _ =>
        ({ status := 400, error := some "Both review screenshot and ticket are required" },
         { st with cachedDb := cache1 })

/-- The POST submit-form handler of the serverless variant (part_000
lines 322-348): `connectDB` first, check the two named file parts, save
against the schema WITHOUT `required` markers, answer 201 with the full
saved document (which holds file paths, not binary content); a single
catch yields the same 500 for every thrown error. -/
def submitForm_serverless (env : Env) (body : Body) (files : Option Files) (st : DiskDB) :
    DiskResponse × DiskDB :=
  match connectDB st.dbConnected env.connectOutcome with
  | (c1, _, Except.error _) =>
    ({ status := 500, error := some "Failed to submit form" }, { st with dbConnected := c1 })
  | (c1, _, Except.ok _) =>
    match files with
    | none =>
      ({ status := 500, error := some "Failed to submit form" }, { st with dbConnected := c1 })
    | some fs =>
      match fs.reviewScreenshot, fs.ticket with
      | some rs, some tk =>
        match mongooseSaveDiskLoose env (mkDiskRecord body rs tk) { st with dbConnected := c1 } with
        | Except.ok (saved, st2) =>
          ({ status := 201, message := some "Form submitted successfully",
             data := some saved }, st2)
        | Except.error _ =>
          ({ status := 500, error := some "Failed to submit form" },
           { st with dbConnected := c1 })
      | _, _ =>
        ({ status := 400, error := some "Both review screenshot and ticket are required" },
         { st with dbConnected := c1 })

/-- The POST submit-form handler of index.ts (lines 69-94): the
connection is made once at startup, so the handler only checks the two
named file parts, saves against the all-`required` disk schema, and
answers 201 with the full saved document (file paths, no binary
content); a single catch yields the same 500 for every thrown error. -/
def submitForm_index (env : Env) (body : Body) (files : Option Files) (st : DiskDB) :
    DiskResponse × DiskDB :=
  match files with
  | none => ({ status := 500, error := some "Failed to submit form" }, st)
  | some fs =>
    match fs.reviewScreenshot, fs.ticket with
    | some rs, some tk =>
      match mongooseSaveDisk env (mkDiskRecord body rs tk) st with
      | Except.ok (saved, st2) =>
        ({ status := 201, message := some "Form submitted successfully",
           data := some saved }, st2)
      | Except.error _ =>
        ({ status := 500, error := some "Failed to submit form" }, st)
    | _, _ =>
      ({ status := 400, error := some "Both review screenshot and ticket are required" }, st)

/-- The global Express error middleware of part_000 main
(lines 219-230): 500, with `details` only in development mode. Errors
thrown by the multer middleware land here. -/
def errMw_part000 (nodeEnv : String) (msg : String) : MemResponse :=
  { status := 500, error := some "Something went wrong!",
    details := if nodeEnv = "development" then some msg else none }

/-- The global Express error middleware of part_003 (lines 207-218),
identical gating to part_000 main. -/
def errMw_part003 (nodeEnv : String) (msg : String) : MemResponse :=
  { status := 500, error := some "Something went wrong!",
    details := if nodeEnv = "development" then some msg else none }

/-- The full part_000 main request pipeline for POST submit-form: the
multer middleware runs first; a multer error skips the handler and is
answered by the global error middleware, leaving the store untouched;
otherwise the handler runs on the parsed files. -/
def pipeline_part000 (env : Env) (body : Body) (parts : List UploadedFile) (st : MemDB) :
    MemResponse × MemDB :=
  match multerParse parts with
  | Except.error e => (errMw_part000 env.nodeEnv (multerErrorMessage e), st)
  | Except.ok fs => submitForm_part000 env body (some fs) st

/-! Concrete fixtures used by witnesses and counterexamples. -/

/-- A complete, valid form body. -/
def goodBody : Body :=
  { name := some "Vamsi"
    email := some "vamsi@example.com"
    phone := some "9999999999"
    dateOfTravel := some "2024-05-01"
    source := some "Instagram" }

/-- A body whose only defect is an absent name field. -/
def bodyNoName : Body :=
  { name := none
    email := some "vamsi@example.com"
    phone := some "9999999999"
    dateOfTravel := some "2024-05-01"
    source := some "Instagram" }

/-- A body whose only defect is an absent email field. -/
def bodyNoEmail : Body :=
  { name := some "Vamsi"
    email := none
    phone := some "9999999999"
    dateOfTravel := some "2024-05-01"
    source := some "Instagram" }

/-- A valid PNG review screenshot part. -/
def rsFile : UploadedFile :=
  { fieldname := "reviewScreenshot"
    originalname := "shot.png"
    mimetype := "image/png"
    content := [1, 2, 3]
    path := "uploads/reviewScreenshot-1.png" }

/-- A valid PDF ticket part. -/
def tkFile : UploadedFile :=
  { fieldname := "ticket"
    originalname := "ticket.pdf"
    mimetype := "application/pdf"
    content := [4, 5]
    path := "uploads/ticket-1.pdf" }

/-- A plain-text ticket part, whose MIME type is outside the allowed
set. -/
def txtFile : UploadedFile :=
  { fieldname := "ticket"
    originalname := "notes.txt"
    mimetype := "text/plain"
    content := [6]
    path := "uploads/ticket-2.txt" }

/-- Both named file parts present. -/
def goodFiles : Files := { reviewScreenshot := some rsFile, ticket := some tkFile }

/-- The ticket part absent. -/
def filesNoTicket : Files := { reviewScreenshot := some rsFile, ticket := none }

/-- Fresh memory-variant process state: no cached connection, empty
store. -/
def st0 : MemDB := { cachedDb := none, records := [], nextId := 0 }

/-- Fresh disk-variant process state. -/
def dst0 : DiskDB := { dbConnected := false, records := [], nextId := 0 }

/-- Everything external succeeds; production mode. -/
def envOK : Env :=
  { connectOutcome := some 1
    connectErrMsg := ""
    saveOk := true
    saveErrMsg := ""
    nodeEnv := "production" }

/-- The store is unreachable; production mode. -/
def envConnFail : Env :=
  { connectOutcome := none
    connectErrMsg := "connect ECONNREFUSED"
    saveOk := true
    saveErrMsg := ""
    nodeEnv := "production" }

/-- Connection succeeds but the store rejects the insert. -/
def envSaveFail : Env :=
  { connectOutcome := some 1
    connectErrMsg := ""
    saveOk := false
    saveErrMsg := "E11000 duplicate key error"
    nodeEnv := "production" }

/-! Helper lemmas. -/

/-- Identifier assignment does not affect schema validation. -/
theorem memRequiredOk_withId (r : MemRecord) (n : Nat) :
    memRequiredOk (withId r n) = memRequiredOk r := rfl

/-- A file accepted by the multer configuration: allowed MIME type and
size within the limit. -/
def goodFile (f : UploadedFile) : Prop :=
  allowedTypes.contains f.mimetype = true ∧ f.content.length ≤ fileSizeLimit

/-- A part the multer configuration must reject: disallowed MIME type or
size above the limit. -/
def badPart (f : UploadedFile) : Prop :=
  allowedTypes.contains f.mimetype = false ∨ fileSizeLimit < f.content.length

instance (f : UploadedFile) : Decidable (goodFile f) := by
  unfold goodFile; infer_instance

instance (f : UploadedFile) : Decidable (badPart f) := by
  unfold badPart; infer_instance

/-- If any part of the request violates the MIME-type or size policy,
multer aborts the request with an error, whatever has been accepted so
far. -/
theorem multerFields_err (parts : List UploadedFile) (acc : Files)
    (h : ∃ p ∈ parts, badPart p) :
    ∃ e, multerFields parts acc = Except.error e := by
  induction parts generalizing acc with
  | nil =>
    rcases h with ⟨p, hp, _⟩
    exact absurd hp (List.not_mem_nil p)
  | cons f rest ih =>
    rcases h with ⟨p, hp, hbad⟩
    by_cases h1 : f.fieldname = "reviewScreenshot"
    · rcases hacc : acc.reviewScreenshot with _ | g
      · by_cases h2 : f.mimetype ∈ allowedTypes
        · by_cases h3 : fileSizeLimit < f.content.length
          · exact ⟨MulterError.limitFileSize, by simp [multerFields, h1, hacc, h2, h3]⟩
          · have hp' : p ∈ rest := by
              rcases List.mem_cons.mp hp with rfl | hpr
              · rcases hbad with hb | hb
                · simp at hb
                  exact absurd h2 hb
                · exact absurd hb h3
              · exact hpr
            rcases ih { acc with reviewScreenshot := some f } ⟨p, hp', hbad⟩ with ⟨e, he⟩
            exact ⟨e, by simp [multerFields, h1, hacc, h2, h3, he]⟩
        · exact ⟨MulterError.invalidFileType, by simp [multerFields, h1, hacc, h2]⟩
      · exact ⟨MulterError.limitUnexpectedFile, by simp [multerFields, h1, hacc]⟩
    · by_cases h1t : f.fieldname = "ticket"
      · rcases hacc : acc.ticket with _ | g
        · by_cases h2 : f.mimetype ∈ allowedTypes
          · by_cases h3 : fileSizeLimit < f.content.length
            · exact ⟨MulterError.limitFileSize, by simp [multerFields, h1, h1t, hacc, h2, h3]⟩
            · have hp' : p ∈ rest := by
                rcases List.mem_cons.mp hp with rfl | hpr
                · rcases hbad with hb | hb
                  · simp at hb
                    exact absurd h2 hb
                  · exact absurd hb h3
                · exact hpr
              rcases ih { acc with ticket := some f } ⟨p, hp', hbad⟩ with ⟨e, he⟩
              exact ⟨e, by simp [multerFields, h1, h1t, hacc, h2, h3, he]⟩
          · exact ⟨MulterError.invalidFileType, by simp [multerFields, h1, h1t, hacc, h2]⟩
        · exact ⟨MulterError.limitUnexpectedFile, by simp [multerFields, h1, h1t, hacc]⟩
      · exact ⟨MulterError.limitUnexpectedFile, by simp [multerFields, h1, h1t]⟩

/-- Every file that survives `multerFields` into the `req.files` object
passed the MIME-type filter and the size limit. -/
theorem multerFields_ok_good (parts : List UploadedFile) (acc fs : Files)
    (hok : multerFields parts acc = Except.ok fs)
    (ha : ∀ f, acc.reviewScreenshot = some f → goodFile f)
    (hb : ∀ f, acc.ticket = some f → goodFile f) :
    (∀ f, fs.reviewScreenshot = some f → goodFile f) ∧
    (∀ f, fs.ticket = some f → goodFile f) := by
  induction parts generalizing acc with
  | nil =>
    simp [multerFields] at hok
    subst hok
    exact ⟨ha, hb⟩
  | cons f rest ih =>
    by_cases h1 : f.fieldname = "reviewScreenshot"
    · rcases hacc : acc.reviewScreenshot with _ | g
      · by_cases h2 : f.mimetype ∈ allowedTypes
        · by_cases h3 : fileSizeLimit < f.content.length
          · simp [multerFields, h1, hacc, h2, h3] at hok
          · simp [multerFields, h1, hacc, h2, h3] at hok
            exact ih { acc with reviewScreenshot := some f } hok
              (by
                intro g hg
                simp at hg
                subst hg
                exact ⟨by simp [h2], Nat.le_of_not_lt h3⟩)
              (by
                intro g hg
                simp at hg
                exact hb g hg)
        · simp [multerFields, h1, hacc, h2] at hok
      · simp [multerFields, h1, hacc] at hok
    · by_cases h1t : f.fieldname = "ticket"
      · rcases hacc : acc.ticket with _ | g
        · by_cases h2 : f.mimetype ∈ allowedTypes
          · by_cases h3 : fileSizeLimit < f.content.length
            · simp [multerFields, h1, h1t, hacc, h2, h3] at hok
            · simp [multerFields, h1, h1t, hacc, h2, h3] at hok
              exact ih { acc with ticket := some f } hok
                (by
                  intro g hg
                  simp at hg
                  exact ha g hg)
                (by
                  intro g hg
                  simp at hg
                  subst hg
                  exact ⟨by simp [h2], Nat.le_of_not_lt h3⟩)
          · simp [multerFields, h1, h1t, hacc, h2] at hok
        · simp [multerFields, h1, h1t, hacc] at hok
      · simp [multerFields, h1, h1t] at hok

/-- Files delivered by `multerParse` passed the filter and the size
limit. -/
theorem multerParse_good (parts : List UploadedFile) (fs : Files)
    (hok : multerParse parts = Except.ok fs) :
    (∀ f, fs.reviewScreenshot = some f → goodFile f) ∧
    (∀ f, fs.ticket = some f → goodFile f) := by
  refine multerFields_ok_good parts _ fs hok ?_ ?_
  · intro f hf
    simp at hf
  · intro f hf
    simp at hf

/-- Exhaustive case analysis of the part_000 main handler: either the
request fails (any non-201 outcome) and the stored collection is
untouched, or it succeeds with status 201, both file parts were present,
the five fields were present, schema validation passed, and exactly the
new document (with a fresh identifier) was prepended to the
collection. -/
theorem part000_cases (env : Env) (body : Body) (files : Option Files) (st : MemDB) :
    ((submitForm_part000 env body files st).snd.records = st.records ∧
      (submitForm_part000 env body files st).fst.status ≠ 201 ∧
      (submitForm_part000 env body files st).fst.data = none) ∨
    (∃ fs rs tk, files = some fs ∧ fs.reviewScreenshot = some rs ∧ fs.ticket = some tk ∧
      missingFields body = [] ∧
      memRequiredOk (mkMemRecord body rs tk) = true ∧
      env.saveOk = true ∧
      (submitForm_part000 env body files st).fst.status = 201 ∧
      (submitForm_part000 env body files st).snd.records =
        withId (mkMemRecord body rs tk) st.nextId :: st.records ∧
      (submitForm_part000 env body files st).fst.data =
        some (stripBinary (withId (mkMemRecord body rs tk) st.nextId))) := by
  rcases files with _ | fs
  · left
    simp [submitForm_part000]
  · by_cases hm : 0 < (missingFields body).length
    · left
      simp [submitForm_part000, hm]
    · have hm0 : missingFields body = [] :=
        List.length_eq_zero.mp (Nat.eq_zero_of_not_pos hm)
      rcases hc : connectToDatabase st.cachedDb env.connectOutcome with ⟨c1, eff, res⟩
      rcases res with _ | hdl
      · left
        simp [submitForm_part000, hm, hc]
      · rcases hrs : fs.reviewScreenshot with _ | rs
        · left
          simp [submitForm_part000, hm, hc, hrs]
        · rcases htk : fs.ticket with _ | tk
          · left
            simp [submitForm_part000, hm, hc, hrs, htk]
          · by_cases hreq : memRequiredOk (mkMemRecord body rs tk) = true
            · by_cases hsave : env.saveOk = true
              · right
                refine ⟨fs, rs, tk, rfl, hrs, htk, hm0, hreq, hsave, ?_, ?_, ?_⟩ <;>
                  simp [submitForm_part000, hm, hc, hrs, htk, mongooseSaveMem, hreq, hsave]
              · left
                simp [submitForm_part000, hm, hc, hrs, htk, mongooseSaveMem, hreq, hsave]
            · left
              simp [submitForm_part000, hm, hc, hrs, htk, mongooseSaveMem, hreq]

/-- Sequential calls to `connectToDatabase` within one process: thread
the `cachedDb` module variable through a list of per-call connection
outcomes, recording for every call whether a connect side effect
happened and what the call returned. -/
def connectTrace : Option Nat → List (Option Nat) →
    List (Bool × Except Unit Nat) × Option Nat
  | c, [] => ([], c)
  | c, o :: rest =>
    ((connectToDatabase c o).2.1, (connectToDatabase c o).2.2) ::
        (connectTrace (connectToDatabase c o).1 rest).1
      |> fun tr => (tr, (connectTrace (connectToDatabase c o).1 rest).2)

/-- Once the cache holds a handle, every further call is a pure cache
hit: no side effect, same handle, cache unchanged. -/
theorem connectTrace_cached (h : Nat) (l : List (Option Nat)) :
    connectTrace (some h) l =
      (l.map (fun _ => ((false : Bool), Except.ok h)), some h) := by
  induction l with
  | nil => rfl
  | cons o rest ih =>
    simp [connectTrace, connectToDatabase, ih]

/-! Claim theorems. -/

/-- C7 (confirmed): in any sequence of `connectToDatabase` calls whose
first connection attempt succeeds with handle h, the first call performs
the single connection-establishment side effect, and every later call is
a cache hit: it performs no connect side effect and returns the same
cached handle h, whatever the later outcomes of the oracle would have
been. The connection is therefore established at most once per process
lifetime and is idempotent after the first success. -/
theorem C7_connection_idempotent (h : Nat) (rest : List (Option Nat)) :
    connectTrace none (some h :: rest) =
      ((true, Except.ok h) :: rest.map (fun _ => ((false : Bool), Except.ok h)), some h) := by
  have h1 : connectToDatabase none (some h) = (some h, true, Except.ok h) := rfl
  simp [connectTrace, h1, connectTrace_cached]

/-- C10 (confirmed): the connection cache is assigned only when a
connection attempt succeeds. Starting from an empty cache, the new cache
value equals the attempt outcome, so a failed attempt leaves the cache
empty, and the call after a failed attempt performs a full connection
attempt again (its side-effect flag is true). The same holds for the
`dbConnected` flag of the serverless `connectDB`. -/
theorem C10_cache_only_on_success (o : Option Nat) :
    (connectToDatabase none o).1 = o ∧
    (connectToDatabase none Option.none).2.1 = true ∧
    (connectToDatabase (connectToDatabase none Option.none).1 o).2.1 = true ∧
    (connectDB false o).1 = o.isSome ∧
    (connectDB (connectDB false Option.none).1 o).2.1 = true := by
  refine ⟨?_, rfl, ?_, ?_, ?_⟩ <;> cases o <;> rfl

/-- C1 (counterexample): the claim says every handler answers a request
with a missing scalar field with 400 and a body listing exactly the
missing field names. The index.ts handler performs no field validation at
all: with both files present and the name field absent, schema `required`
validation makes `save` throw, the single catch answers 500 with a
generic error and no field list, so the claim is false as stated. -/
theorem C1_counterexample :
    (submitForm_index envOK bodyNoName (some goodFiles) dst0).fst.status = 500 ∧
    (submitForm_index envOK bodyNoName (some goodFiles) dst0).fst.status ≠ 400 ∧
    (submitForm_index envOK bodyNoName (some goodFiles) dst0).fst.error =
      some "Failed to submit form" := by
  decide

/-- C1 (amended): in the variants that do validate fields (part_000
main, and identically part_002 and part_003), a request whose parsed
files object is present and whose scalar fields are not all populated is
answered 400 with error Missing required fields and a fields list that
is exactly the set of required field names whose body value is absent or
empty, and nothing is persisted. index.ts, part_001 and the serverless
variant perform no such validation. -/
theorem C1_missing_fields_400 (env : Env) (body : Body) (fs : Files) (st : MemDB)
    (hne : missingFields body ≠ []) :
    (submitForm_part000 env body (some fs) st).fst.status = 400 ∧
    (submitForm_part000 env body (some fs) st).fst.error = some "Missing required fields" ∧
    (submitForm_part000 env body (some fs) st).fst.fields = some (missingFields body) ∧
    (submitForm_part000 env body (some fs) st).snd.records = st.records ∧
    (∀ f, f ∈ missingFields body ↔
      f ∈ requiredFields ∧ truthy (fieldVal body f) = false) := by
  have hl : 0 < (missingFields body).length := List.length_pos.mpr hne
  refine ⟨?_, ?_, ?_, ?_, ?_⟩
  · simp [submitForm_part000, hl]
  · simp [submitForm_part000, hl]
  · simp [submitForm_part000, hl]
  · simp [submitForm_part000, hl]
  · intro f
    simp [missingFields, List.mem_filter]

/-- C1 (witness): a concrete body missing only the name field gets 400
and the one-element fields list consisting of name. -/
theorem C1_missing_fields_400_witness :
    (submitForm_part000 envOK bodyNoName (some goodFiles) st0).fst.status = 400 ∧
    (submitForm_part000 envOK bodyNoName (some goodFiles) st0).fst.fields = some ["name"] := by
  have h := C1_missing_fields_400 envOK bodyNoName goodFiles st0 (by decide)
  exact ⟨h.1, h.2.2.1.trans (by decide)⟩

/-- The record the serverless variant persists for `bodyNoName` with the
two good files: the name field is absent. -/
def serverlessRecNoName : DiskRecord := diskWithId (mkDiskRecord bodyNoName rsFile tkFile) 0

/-- C2 (counterexample): the claim says no record is ever persisted with
a required scalar field absent. The serverless variant declares its
schema without `required` markers, so a request with both files and no
name field is accepted: the handler answers 201 and the store now holds
exactly one record whose name is absent. -/
theorem C2_counterexample :
    (submitForm_serverless envOK bodyNoName (some goodFiles) dst0).fst.status = 201 ∧
    (submitForm_serverless envOK bodyNoName (some goodFiles) dst0).snd.records =
      [serverlessRecNoName] ∧
    serverlessRecNoName.name = none := by
  decide

/-- C2 (amended): in the variants whose schema marks every field
required (part_000 main - and identically part_001, part_002, part_003 -
and index.ts), the invariant does hold: any record present after a
request that was not present before has all five scalar fields populated
and exactly one review-screenshot and one ticket attachment (the Option
slots hold at most one file each because multer enforces maxCount 1).
The serverless variant violates the invariant as shown by the
counterexample. -/
theorem C2_required_schema_invariant (env : Env) (body : Body) (files : Option Files)
    (st : MemDB) (dst : DiskDB) (r : MemRecord) (rd : DiskRecord) :
    (r ∈ (submitForm_part000 env body files st).snd.records →
      r ∈ st.records ∨
        (memRequiredOk r = true ∧ r.reviewScreenshot.isSome = true ∧ r.ticket.isSome = true)) ∧
    (rd ∈ (submitForm_index env body files dst).snd.records →
      rd ∈ dst.records ∨ diskRequiredOk rd = true) := by
  constructor
  · intro hr
    rcases part000_cases env body files st with ⟨hrec, _, _⟩ | ⟨fs, rs, tk, _, _, _, _, hreq, _, _, hrec, _⟩
    · rw [hrec] at hr
      exact Or.inl hr
    · rw [hrec] at hr
      rcases List.mem_cons.mp hr with rfl | hr'
    
      · refine Or.inr ⟨?_, ?_, ?_⟩
        · rw [memRequiredOk_withId]
          exact hreq
        · rfl
        · rfl
      · exact Or.inl hr'
  · intro hr
    unfold submitForm_index at hr
    rcases files with _ | fs
    · exact Or.inl hr
    · rcases hrs : fs.reviewScreenshot with _ | rs
      · simp [hrs] at hr
        exact Or.inl hr
      · rcases htk : fs.ticket with _ | tk
        · simp [hrs, htk] at hr
          exact Or.inl hr
        · by_cases hreq : diskRequiredOk (mkDiskRecord body rs tk) = true
          · by_cases hsave : env.saveOk = true
            · simp [hrs, htk, mongooseSaveDisk, hreq, hsave] at hr
              rcases hr with rfl | hr'
              · refine Or.inr ?_
                unfold diskWithId
                unfold diskRequiredOk at hreq ⊢
                exact hreq
              · exact Or.inl hr'
            · simp [hrs, htk, mongooseSaveDisk, hreq, hsave] at hr
              exact Or.inl hr
          · simp [hrs, htk, mongooseSaveDisk, hreq] at hr
            exact Or.inl hr

/-- The record part_000 main persists for a fully valid concrete
request. -/
def part000SavedGood : MemRecord := withId (mkMemRecord goodBody rsFile tkFile) 0

/-- The record index.ts persists for the same valid concrete request. -/
def indexSavedGood : DiskRecord := diskWithId (mkDiskRecord goodBody rsFile tkFile) 0

/-- C2 (witness): at a concrete successful submission, the newly stored
records of part_000 main and index.ts satisfy the invariant. -/
theorem C2_required_schema_invariant_witness :
    (part000SavedGood ∈ ([] : List MemRecord) ∨
      (memRequiredOk part000SavedGood = true ∧
        part000SavedGood.reviewScreenshot.isSome = true ∧
        part000SavedGood.ticket.isSome = true)) ∧
    (indexSavedGood ∈ ([] : List DiskRecord) ∨ diskRequiredOk indexSavedGood = true) := by
  have h := C2_required_schema_invariant envOK goodBody (some goodFiles) st0 dst0
    part000SavedGood indexSavedGood
  exact ⟨h.1 (by decide), h.2 (by decide)⟩

/-- C3 (counterexample): the claim says a file with a disallowed MIME
type is rejected with status 400. In every variant the multer
`fileFilter` error is passed to the Express error middleware, which
answers 500 (Something went wrong!), not 400: here a text/plain ticket
part makes the part_000 main pipeline answer 500 and leave the store
untouched. -/
theorem C3_counterexample :
    (pipeline_part000 envOK goodBody [rsFile, txtFile] st0).fst.status = 500 ∧
    (pipeline_part000 envOK goodBody [rsFile, txtFile] st0).fst.status ≠ 400 ∧
    (pipeline_part000 envOK goodBody [rsFile, txtFile] st0).fst.error =
      some "Something went wrong!" ∧
    (pipeline_part000 envOK goodBody [rsFile, txtFile] st0).snd = st0 := by
  decide

/-- C3 (amended): a request containing any part with a MIME type outside
the allowed set or a size above 5 MiB is rejected before the handler
runs - no record is created and the process state is untouched - but the
rejection status is 500 from the global error middleware, not 400. -/
theorem C3_bad_file_rejected_before_handler (env : Env) (body : Body)
    (parts : List UploadedFile) (st : MemDB)
    (h : ∃ p ∈ parts, badPart p) :
    (pipeline_part000 env body parts st).fst.status = 500 ∧
    (pipeline_part000 env body parts st).fst.error = some "Something went wrong!" ∧
    (pipeline_part000 env body parts st).snd = st := by
  rcases multerFields_err parts { reviewScreenshot := none, ticket := none } h with ⟨e, he⟩
  have hp : multerParse parts = Except.error e := he
  refine ⟨?_, ?_, ?_⟩ <;> simp [pipeline_part000, hp, errMw_part000]

/-- C3 (witness): a single text/plain part triggers the amended
behavior at a concrete input. -/
theorem C3_bad_file_rejected_witness :
    (pipeline_part000 envOK goodBody [txtFile] st0).fst.status = 500 ∧
    (pipeline_part000 envOK goodBody [txtFile] st0).fst.error =
      some "Something went wrong!" ∧
    (pipeline_part000 envOK goodBody [txtFile] st0).snd = st0 :=
  C3_bad_file_rejected_before_handler envOK goodBody [txtFile] st0
    ⟨txtFile, by decide, by decide⟩

/-- MIME type slot of a stored record holds an allowed type. -/
def typeOk : Option String → Bool
  | none => false
  | some t => allowedTypes.contains t

/-- Attachment slot of a stored record holds content within the size
ceiling. -/
def sizeOk : Option (List Nat) → Bool
  | none => false
  | some b => decide (b.length ≤ fileSizeLimit)

/-- All data-model invariants of a stored memory-schema record: the five
scalar fields populated, exactly one screenshot and one ticket
attachment present (with their MIME-type strings), both declared types
in the allowed set, both sizes within the ceiling. -/
def recordInvariants (r : MemRecord) : Bool :=
  memRequiredOk r && typeOk r.reviewScreenshotType && typeOk r.ticketType &&
  sizeOk r.reviewScreenshot && sizeOk r.ticket

/-- The record the serverless variant persists for `bodyNoEmail`. -/
def serverlessRecNoEmail : DiskRecord := diskWithId (mkDiskRecord bodyNoEmail rsFile tkFile) 0

/-- C4 (counterexample): the claim says a 201 response implies the
persisted record satisfies all data-model invariants. The serverless
variant answers 201 for a request with no email field and persists a
record with the email absent, violating the five-populated-fields
invariant. -/
theorem C4_counterexample :
    (submitForm_serverless envOK bodyNoEmail (some goodFiles) dst0).fst.status = 201 ∧
    (submitForm_serverless envOK bodyNoEmail (some goodFiles) dst0).snd.records =
      [serverlessRecNoEmail] ∧
    serverlessRecNoEmail.email = none := by
  decide

/-- The global error middleware of part_001 (lines 122-125): plain 500,
no details key. Multer errors of that app land here. -/
def errMw_part001 : MemResponse := { status := 500, error := some "Something went wrong!" }

/-- The global error middleware of index.ts (lines 110-113): plain 500,
no details key. -/
def errMw_index : DiskResponse := { status := 500, error := some "Something went wrong!" }

/-- The global error middleware of the serverless variant (part_000
lines 356-359): plain 500, no details key. -/
def errMw_serverless : DiskResponse := { status := 500, error := some "Something went wrong!" }

/-- The full part_001 request pipeline for POST submit-form: multer
first, its errors answered by the part_001 global error middleware with
the store untouched, otherwise the handler. -/
def pipeline_part001 (env : Env) (body : Body) (parts : List UploadedFile) (st : MemDB) :
    MemResponse × MemDB :=
  match multerParse parts with
  | Except.error _ => (errMw_part001, st)
  | Except.ok fs => submitForm_part001 env body (some fs) st

/-- The full index.ts request pipeline for POST submit-form. -/
def pipeline_index (env : Env) (body : Body) (parts : List UploadedFile) (dst : DiskDB) :
    DiskResponse × DiskDB :=
  match multerParse parts with
  | Except.error _ => (errMw_index, dst)
  | Except.ok fs => submitForm_index env body (some fs) dst

/-- The full serverless-variant request pipeline for POST submit-form. -/
def pipeline_serverless (env : Env) (body : Body) (parts : List UploadedFile) (dst : DiskDB) :
    DiskResponse × DiskDB :=
  match multerParse parts with
  | Except.error _ => (errMw_serverless, dst)
  | Except.ok fs => submitForm_serverless env body (some fs) dst

/-- Exhaustive case analysis of the part_001 handler: any non-201
outcome leaves the collection untouched; a 201 means both parts were
present, schema validation passed, the store accepted the insert, and
exactly the new document was prepended. -/
theorem part001_cases (env : Env) (body : Body) (files : Option Files) (st : MemDB) :
    ((submitForm_part001 env body files st).snd.records = st.records ∧
      (submitForm_part001 env body files st).fst.status ≠ 201) ∨
    (∃ fs rs tk, files = some fs ∧ fs.reviewScreenshot = some rs ∧ fs.ticket = some tk ∧
      memRequiredOk (mkMemRecord body rs tk) = true ∧
      env.saveOk = true ∧
      (submitForm_part001 env body files st).fst.status = 201 ∧
      (submitForm_part001 env body files st).snd.records =
        withId (mkMemRecord body rs tk) st.nextId :: st.records) := by
  rcases hc : connectToDatabase st.cachedDb env.connectOutcome with ⟨c1, eff, res⟩
  rcases res with _ | hdl
  · left
    simp [submitForm_part001, hc]
  · rcases files with _ | fs
    · left
      simp [submitForm_part001, hc]
    · rcases hrs : fs.reviewScreenshot with _ | rs
      · left
        simp [submitForm_part001, hc, hrs]
      · rcases htk : fs.ticket with _ | tk
        · left
          simp [submitForm_part001, hc, hrs, htk]
        · by_cases hreq : memRequiredOk (mkMemRecord body rs tk) = true
          · by_cases hsave : env.saveOk = true
            · right
              refine ⟨fs, rs, tk, rfl, hrs, htk, hreq, hsave, ?_, ?_⟩ <;>
                simp [submitForm_part001, hc, hrs, htk, mongooseSaveMem, hreq, hsave]
            · left
              simp [submitForm_part001, hc, hrs, htk, mongooseSaveMem, hreq, hsave]
          · left
            simp [submitForm_part001, hc, hrs, htk, mongooseSaveMem, hreq]

/-- Exhaustive case analysis of the index.ts handler: any non-201
outcome leaves the collection untouched; a 201 means both parts were
present, the all-required disk schema validated, the store accepted the
insert, and exactly the new document was prepended. -/
theorem index_cases (env : Env) (body : Body) (files : Option Files) (dst : DiskDB) :
    ((submitForm_index env body files dst).snd.records = dst.records ∧
      (submitForm_index env body files dst).fst.status ≠ 201) ∨
    (∃ fs rs tk, files = some fs ∧ fs.reviewScreenshot = some rs ∧ fs.ticket = some tk ∧
      diskRequiredOk (mkDiskRecord body rs tk) = true ∧
      env.saveOk = true ∧
      (submitForm_index env body files dst).fst.status = 201 ∧
      (submitForm_index env body files dst).snd.records =
        diskWithId (mkDiskRecord body rs tk) dst.nextId :: dst.records) := by
  rcases files with _ | fs
  · left
    simp [submitForm_index]
  · rcases hrs : fs.reviewScreenshot with _ | rs
    · left
      simp [submitForm_index, hrs]
    · rcases htk : fs.ticket with _ | tk
      · left
        simp [submitForm_index, hrs, htk]
      · by_cases hreq : diskRequiredOk (mkDiskRecord body rs tk) = true
        · by_cases hsave : env.saveOk = true
          · right
            refine ⟨fs, rs, tk, rfl, hrs, htk, hreq, hsave, ?_, ?_⟩ <;>
              simp [submitForm_index, hrs, htk, mongooseSaveDisk, hreq, hsave]
          · left
            simp [submitForm_index, hrs, htk, mongooseSaveDisk, hreq, hsave]
        · left
          simp [submitForm_index, hrs, htk, mongooseSaveDisk, hreq]

/-- Exhaustive case analysis of the serverless handler: any non-201
outcome leaves the collection untouched; a 201 means both parts were
present, the store accepted the insert (no schema validation here), and
exactly the new document was prepended. -/
theorem serverless_cases (env : Env) (body : Body) (files : Option Files) (dst : DiskDB) :
    ((submitForm_serverless env body files dst).snd.records = dst.records ∧
      (submitForm_serverless env body files dst).fst.status ≠ 201) ∨
    (∃ fs rs tk, files = some fs ∧ fs.reviewScreenshot = some rs ∧ fs.ticket = some tk ∧
      env.saveOk = true ∧
      (submitForm_serverless env body files dst).fst.status = 201 ∧
      (submitForm_serverless env body files dst).snd.records =
        diskWithId (mkDiskRecord body rs tk) dst.nextId :: dst.records) := by
  rcases hc : connectDB dst.dbConnected env.connectOutcome with ⟨c1, eff, res⟩
  rcases res with _ | hdl
  · left
    simp [submitForm_serverless, hc]
  · rcases files with _ | fs
    · left
      simp [submitForm_serverless, hc]
    · rcases hrs : fs.reviewScreenshot with _ | rs
      · left
        simp [submitForm_serverless, hc, hrs]
      · rcases htk : fs.ticket with _ | tk
        · left
          simp [submitForm_serverless, hc, hrs, htk]
        · by_cases hsave : env.saveOk = true
          · right
            refine ⟨fs, rs, tk, rfl, hrs, htk, hsave, ?_, ?_⟩ <;>
              simp [submitForm_serverless, hc, hrs, htk, mongooseSaveDiskLoose, hsave]
          · left
            simp [submitForm_serverless, hc, hrs, htk, mongooseSaveDiskLoose, hsave]

/-- Both halves of the response-persistence contract for the part_000
main pipeline: a 201 commits exactly one record and every record in the
store afterwards is an old one or satisfies all invariants; any other
status leaves the collection untouched. -/
theorem pipeline_part000_persistence (env : Env) (body : Body)
    (parts : List UploadedFile) (st : MemDB) :
    ((pipeline_part000 env body parts st).fst.status = 201 →
      (pipeline_part000 env body parts st).snd.records.length = st.records.length + 1 ∧
      (∀ r, r ∈ (pipeline_part000 env body parts st).snd.records →
        r ∈ st.records ∨ recordInvariants r = true)) ∧
    ((pipeline_part000 env body parts st).fst.status ≠ 201 →
      (pipeline_part000 env body parts st).snd.records = st.records) := by
  rcases hp : multerParse parts with e | fs
  · constructor
    · intro h201
      rw [pipeline_part000] at h201
      rw [hp] at h201
      simp [errMw_part000] at h201
    · intro _
      rw [pipeline_part000]
      rw [hp]
  · have hpi : pipeline_part000 env body parts st = submitForm_part000 env body (some fs) st := by
      rw [pipeline_part000, hp]
    rw [hpi]
    rcases part000_cases env body (some fs) st with ⟨hrec, hstat, _⟩ |
      ⟨fs', rs, tk, hfs, hrs, htk, _, hreq, _, hstat, hrec, _⟩
    · exact ⟨fun h201 => absurd h201 hstat, fun _ => hrec⟩
    · have hfs' : fs' = fs := by
        injection hfs with h
        exact h.symm
      subst hfs'
      constructor
      · intro _
        rw [hrec]
        constructor
        · simp
        · intro r hr
          rcases List.mem_cons.mp hr with rfl | hr'
          · right
            have hgood := multerParse_good parts fs' hp
            have hgrs : goodFile rs := hgood.1 rs hrs
            have hgtk : goodFile tk := hgood.2 tk htk
            unfold recordInvariants
            rw [memRequiredOk_withId, hreq]
            have h1 : typeOk (withId (mkMemRecord body rs tk) st.nextId).reviewScreenshotType = true := by
              show allowedTypes.contains rs.mimetype = true
              exact hgrs.1
            have h2 : typeOk (withId (mkMemRecord body rs tk) st.nextId).ticketType = true := by
              show allowedTypes.contains tk.mimetype = true
              exact hgtk.1
            have h3 : sizeOk (withId (mkMemRecord body rs tk) st.nextId).reviewScreenshot = true := by
              show decide (rs.content.length ≤ fileSizeLimit) = true
              exact decide_eq_true hgrs.2
            have h4 : sizeOk (withId (mkMemRecord body rs tk) st.nextId).ticket = true := by
              show decide (tk.content.length ≤ fileSizeLimit) = true
              exact decide_eq_true hgtk.2
            rw [h1, h2, h3, h4]
            rfl
          · exact Or.inl hr'
      · intro hne
        exact absurd hstat hne

/-- Both halves of the response-persistence contract for the part_001
pipeline, with the same record invariants as part_000 main. -/
theorem pipeline_part001_persistence (env : Env) (body : Body)
    (parts : List UploadedFile) (st : MemDB) :
    ((pipeline_part001 env body parts st).fst.status = 201 →
      (pipeline_part001 env body parts st).snd.records.length = st.records.length + 1 ∧
      (∀ r, r ∈ (pipeline_part001 env body parts st).snd.records →
        r ∈ st.records ∨ recordInvariants r = true)) ∧
    ((pipeline_part001 env body parts st).fst.status ≠ 201 →
      (pipeline_part001 env body parts st).snd.records = st.records) := by
  rcases hp : multerParse parts with e | fs
  · constructor
    · intro h201
      rw [pipeline_part001] at h201
      rw [hp] at h201
      simp [errMw_part001] at h201
    · intro _
      rw [pipeline_part001]
      rw [hp]
  · have hpi : pipeline_part001 env body parts st = submitForm_part001 env body (some fs) st := by
      rw [pipeline_part001, hp]
    rw [hpi]
    rcases part001_cases env body (some fs) st with ⟨hrec, hstat⟩ |
      ⟨fs', rs, tk, hfs, hrs, htk, hreq, _, hstat, hrec⟩
    · exact ⟨fun h201 => absurd h201 hstat, fun _ => hrec⟩
    · have hfs' : fs' = fs := by
        injection hfs with h
        exact h.symm
      subst hfs'
      constructor
      · intro _
        rw [hrec]
        constructor
        · simp
        · intro r hr
          rcases List.mem_cons.mp hr with rfl | hr'
          · right
            have hgood := multerParse_good parts fs' hp
            have hgrs : goodFile rs := hgood.1 rs hrs
            have hgtk : goodFile tk := hgood.2 tk htk
            unfold recordInvariants
            rw [memRequiredOk_withId, hreq]
            have h1 : typeOk (withId (mkMemRecord body rs tk) st.nextId).reviewScreenshotType = true := by
              show allowedTypes.contains rs.mimetype = true
              exact hgrs.1
            have h2 : typeOk (withId (mkMemRecord body rs tk) st.nextId).ticketType = true := by
              show allowedTypes.contains tk.mimetype = true
              exact hgtk.1
            have h3 : sizeOk (withId (mkMemRecord body rs tk) st.nextId).reviewScreenshot = true := by
              show decide (rs.content.length ≤ fileSizeLimit) = true
              exact decide_eq_true hgrs.2
            have h4 : sizeOk (withId (mkMemRecord body rs tk) st.nextId).ticket = true := by
              show decide (tk.content.length ≤ fileSizeLimit) = true
              exact decide_eq_true hgtk.2
            rw [h1, h2, h3, h4]
            rfl
          · exact Or.inl hr'
      · intro hne
        exact absurd hstat hne

/-- Both halves of the response-persistence contract for the index.ts
pipeline: the persisted record validates against the all-required disk
schema, and the two files whose paths it holds passed the MIME and size
policy. -/
theorem pipeline_index_persistence (env : Env) (body : Body)
    (parts : List UploadedFile) (dst : DiskDB) :
    ((pipeline_index env body parts dst).fst.status = 201 →
      (pipeline_index env body parts dst).snd.records.length = dst.records.length + 1 ∧
      (∀ rd, rd ∈ (pipeline_index env body parts dst).snd.records →
        rd ∈ dst.records ∨ diskRequiredOk rd = true) ∧
      (∃ rs tk, goodFile rs ∧ goodFile tk ∧
        (pipeline_index env body parts dst).snd.records =
          diskWithId (mkDiskRecord body rs tk) dst.nextId :: dst.records)) ∧
    ((pipeline_index env body parts dst).fst.status ≠ 201 →
      (pipeline_index env body parts dst).snd.records = dst.records) := by
  rcases hp : multerParse parts with e | fs
  · constructor
    · intro h201
      rw [pipeline_index] at h201
      rw [hp] at h201
      simp [errMw_index] at h201
    · intro _
      rw [pipeline_index]
      rw [hp]
  · have hpi : pipeline_index env body parts dst = submitForm_index env body (some fs) dst := by
      rw [pipeline_index, hp]
    rw [hpi]
    rcases index_cases env body (some fs) dst with ⟨hrec, hstat⟩ |
      ⟨fs', rs, tk, hfs, hrs, htk, hreq, _, hstat, hrec⟩
    · exact ⟨fun h201 => absurd h201 hstat, fun _ => hrec⟩
    · have hfs' : fs' = fs := by
        injection hfs with h
        exact h.symm
      subst hfs'
      have hgood := multerParse_good parts fs' hp
      constructor
      · intro _
        rw [hrec]
        refine ⟨by simp, ?_, rs, tk, hgood.1 rs hrs, hgood.2 tk htk, rfl⟩
        intro rd hrd
        rcases List.mem_cons.mp hrd with rfl | hrd'
        · right
          rw [show diskRequiredOk (diskWithId (mkDiskRecord body rs tk) dst.nextId) =
              diskRequiredOk (mkDiskRecord body rs tk) from rfl]
          exact hreq
        · exact Or.inl hrd'
      · intro hne
        exact absurd hstat hne

/-- The failure half of the contract for the serverless pipeline: any
non-201 response leaves the stored collection untouched. -/
theorem pipeline_serverless_fail (env : Env) (body : Body)
    (parts : List UploadedFile) (dst : DiskDB) :
    (pipeline_serverless env body parts dst).fst.status ≠ 201 →
    (pipeline_serverless env body parts dst).snd.records = dst.records := by
  intro hne
  rcases hp : multerParse parts with e | fs
  · rw [pipeline_serverless]
    rw [hp]
  · have hpi : pipeline_serverless env body parts dst =
        submitForm_serverless env body (some fs) dst := by
      rw [pipeline_serverless, hp]
    rw [hpi]
    rcases serverless_cases env body (some fs) dst with ⟨hrec, _⟩ |
      ⟨fs', rs, tk, _, _, _, _, hstat, _⟩
    · exact hrec
    · rw [hpi] at hne
      exact absurd hstat hne

/-- C4 (amended): in every variant a failure response (status other
than 201) implies no record and no partial record was committed: proved
for the part_000 main, part_001, index.ts and serverless pipelines
(part_002 and part_003 share part_000 main control flow). A success
response (201) implies exactly one new record was committed with all
data-model invariants satisfied in the part_000 main, part_001 and
index.ts pipelines (for index.ts: the record validates against the
all-required disk schema and the two files whose paths it stores passed
the MIME-type and size policy). Only the serverless success half fails:
its schema lacks required markers, so 201 does not imply the
scalar-field invariants, as the counterexample shows. -/
theorem C4_response_vs_persistence (env : Env) (body : Body)
    (parts : List UploadedFile) (st : MemDB) (dst : DiskDB) :
    ((pipeline_part000 env body parts st).fst.status = 201 →
      (pipeline_part000 env body parts st).snd.records.length = st.records.length + 1 ∧
      (∀ r, r ∈ (pipeline_part000 env body parts st).snd.records →
        r ∈ st.records ∨ recordInvariants r = true)) ∧
    ((pipeline_part000 env body parts st).fst.status ≠ 201 →
      (pipeline_part000 env body parts st).snd.records = st.records) ∧
    ((pipeline_part001 env body parts st).fst.status = 201 →
      (pipeline_part001 env body parts st).snd.records.length = st.records.length + 1 ∧
      (∀ r, r ∈ (pipeline_part001 env body parts st).snd.records →
        r ∈ st.records ∨ recordInvariants r = true)) ∧
    ((pipeline_part001 env body parts st).fst.status ≠ 201 →
      (pipeline_part001 env body parts st).snd.records = st.records) ∧
    ((pipeline_index env body parts dst).fst.status = 201 →
      (pipeline_index env body parts dst).snd.records.length = dst.records.length + 1 ∧
      (∀ rd, rd ∈ (pipeline_index env body parts dst).snd.records →
        rd ∈ dst.records ∨ diskRequiredOk rd = true) ∧
      (∃ rs tk, goodFile rs ∧ goodFile tk ∧
        (pipeline_index env body parts dst).snd.records =
          diskWithId (mkDiskRecord body rs tk) dst.nextId :: dst.records)) ∧
    ((pipeline_index env body parts dst).fst.status ≠ 201 →
      (pipeline_index env body parts dst).snd.records = dst.records) ∧
    ((pipeline_serverless env body parts dst).fst.status ≠ 201 →
      (pipeline_serverless env body parts dst).snd.records = dst.records) :=
  ⟨(pipeline_part000_persistence env body parts st).1,
   (pipeline_part000_persistence env body parts st).2,
   (pipeline_part001_persistence env body parts st).1,
   (pipeline_part001_persistence env body parts st).2,
   (pipeline_index_persistence env body parts dst).1,
   (pipeline_index_persistence env body parts dst).2,
   pipeline_serverless_fail env body parts dst⟩

/-- C4 (witness): a fully valid concrete request yields 201 and one new
invariant-satisfying record through the part_000 main, part_001 and
index.ts pipelines, and a concrete connection failure leaves the
serverless store untouched. -/
theorem C4_response_vs_persistence_witness :
    (pipeline_part000 envOK goodBody [rsFile, tkFile] st0).snd.records.length =
      st0.records.length + 1 ∧
    (part000SavedGood ∈ st0.records ∨ recordInvariants part000SavedGood = true) ∧
    (pipeline_part001 envOK goodBody [rsFile, tkFile] st0).snd.records.length =
      st0.records.length + 1 ∧
    (pipeline_index envOK goodBody [rsFile, tkFile] dst0).snd.records.length =
      dst0.records.length + 1 ∧
    (indexSavedGood ∈ dst0.records ∨ diskRequiredOk indexSavedGood = true) ∧
    (pipeline_serverless envConnFail goodBody [rsFile, tkFile] dst0).snd.records =
      dst0.records := by
  have h1 := C4_response_vs_persistence envOK goodBody [rsFile, tkFile] st0 dst0
  have h2 := C4_response_vs_persistence envConnFail goodBody [rsFile, tkFile] st0 dst0
  have ha := h1.1 (by decide)
  have hb := h1.2.2.1 (by decide)
  have hcx := h1.2.2.2.2.1 (by decide)
  exact ⟨ha.1, ha.2 part000SavedGood (by decide), hb.1, hcx.1,
    hcx.2.1 indexSavedGood (by decide), h2.2.2.2.2.2.2 (by decide)⟩

/-- An oracle whose fresh connection attempt succeeds with handle 7. -/
def envConn7 : Env :=
  { connectOutcome := some 7
    connectErrMsg := ""
    saveOk := true
    saveErrMsg := ""
    nodeEnv := "production" }

/-- C5 (counterexample): the claim says a request with an absent named
file part is rejected 400 before scalar-field validation and without
attempting a store connection. In part_000 main (and identically
part_002, part_003) both are false: with the ticket part absent and the
name field also missing, the response is the field-validation error, so
field validation ran first; and with a complete body and the ticket part
absent, the 400 is produced only after the handler has established the
store connection (the cache now holds the new handle 7). -/
theorem C5_counterexample :
    (submitForm_part000 envConn7 bodyNoName (some filesNoTicket) st0).fst.error =
      some "Missing required fields" ∧
    (submitForm_part000 envConn7 goodBody (some filesNoTicket) st0).fst.status = 400 ∧
    (submitForm_part000 envConn7 goodBody (some filesNoTicket) st0).fst.error =
      some "Both review screenshot and ticket are required" ∧
    (submitForm_part000 envConn7 goodBody (some filesNoTicket) st0).snd.cachedDb = some 7 := by
  decide

/-- C5 (amended): in the field-validating variants the absent-file-part
check does answer 400 with the both-files-required error and persists
nothing, but it runs after scalar-field validation and after the store
connection has been attempted: when the fields are complete and a fresh
connection attempt succeeds, the cache ends up holding the new handle
even though the request is rejected. (part_001 and the serverless
variant also connect before the file check; only index.ts checks files
first, its connection being made at startup.) -/
theorem C5_missing_file_after_connect (env : Env) (body : Body) (fs : Files)
    (st : MemDB) (h : Nat)
    (hm : missingFields body = [])
    (ht : fs.ticket = none)
    (hc : env.connectOutcome = some h)
    (hdb : st.cachedDb = none) :
    (submitForm_part000 env body (some fs) st).fst.status = 400 ∧
    (submitForm_part000 env body (some fs) st).fst.error =
      some "Both review screenshot and ticket are required" ∧
    (submitForm_part000 env body (some fs) st).snd.records = st.records ∧
    (submitForm_part000 env body (some fs) st).snd.cachedDb = some h := by
  have hl : ¬ 0 < (missingFields body).length := by
    rw [hm]
    simp
  have hcc : connectToDatabase st.cachedDb env.connectOutcome = (some h, true, Except.ok h) := by
    rw [hdb, hc]
    rfl
  rcases hrs : fs.reviewScreenshot with _ | rs <;>
    refine ⟨?_, ?_, ?_, ?_⟩ <;>
      simp [submitForm_part000, hl, hcc, hrs, ht]

/-- C5 (witness): the amended behavior at a concrete input. -/
theorem C5_missing_file_after_connect_witness :
    (submitForm_part000 envConn7 goodBody (some filesNoTicket) st0).fst.status = 400 ∧
    (submitForm_part000 envConn7 goodBody (some filesNoTicket) st0).fst.error =
      some "Both review screenshot and ticket are required" ∧
    (submitForm_part000 envConn7 goodBody (some filesNoTicket) st0).snd.records = st0.records ∧
    (submitForm_part000 envConn7 goodBody (some filesNoTicket) st0).snd.cachedDb = some 7 :=
  C5_missing_file_after_connect envConn7 goodBody filesNoTicket st0 7
    (by decide) (by decide) (by decide) (by decide)

/-- C6 (counterexample): the claim says connection failure and insert
failure are signaled with distinct error payloads. In part_001 (and
likewise index.ts and the serverless variant) one single catch produces
the byte-identical 500 response for both: a valid request under a
connection failure and the same request under an insert rejection get
equal responses. -/
theorem C6_counterexample :
    (submitForm_part001 envConnFail goodBody (some goodFiles) st0).fst =
      (submitForm_part001 envSaveFail goodBody (some goodFiles) st0).fst ∧
    (submitForm_part001 envConnFail goodBody (some goodFiles) st0).fst.status = 500 ∧
    (submitForm_part001 envConnFail goodBody (some goodFiles) st0).fst.error =
      some "Failed to submit form" := by
  decide

/-- C6 (amended): in part_000 main (and identically part_002 and
part_003) the two faults are indeed both 500 and distinguishable: a
connection failure yields the Database connection failed payload, an
insert failure the Failed to save form data payload, and the two error
strings differ. In index.ts, part_001 and the serverless variant a
single catch yields one identical payload for both, as the
counterexample shows. -/
theorem C6_distinct_failure_payloads (env1 env2 : Env) (body : Body)
    (rs tk : UploadedFile) (st1 st2 : MemDB) (d : Nat)
    (hm : missingFields body = [])
    (hdb1 : st1.cachedDb = none) (hc1 : env1.connectOutcome = none)
    (hdb2 : st2.cachedDb = some d) (hs2 : env2.saveOk = false) :
    (submitForm_part000 env1 body (some { reviewScreenshot := some rs, ticket := some tk }) st1).fst.status = 500 ∧
    (submitForm_part000 env1 body (some { reviewScreenshot := some rs, ticket := some tk }) st1).fst.error =
      some "Database connection failed" ∧
    (submitForm_part000 env2 body (some { reviewScreenshot := some rs, ticket := some tk }) st2).fst.status = 500 ∧
    (submitForm_part000 env2 body (some { reviewScreenshot := some rs, ticket := some tk }) st2).fst.error =
      some "Failed to save form data" ∧
    (submitForm_part000 env1 body (some { reviewScreenshot := some rs, ticket := some tk }) st1).fst.error ≠
      (submitForm_part000 env2 body (some { reviewScreenshot := some rs, ticket := some tk }) st2).fst.error := by
  have hl : ¬ 0 < (missingFields body).length := by
    rw [hm]
    simp
  have hcc1 : connectToDatabase st1.cachedDb env1.connectOutcome = (none, true, Except.error ()) := by
    rw [hdb1, hc1]
    rfl
  have hcc2 : connectToDatabase st2.cachedDb env2.connectOutcome = (some d, false, Except.ok d) := by
    rw [hdb2]
    rfl
  have he1 : (submitForm_part000 env1 body (some { reviewScreenshot := some rs, ticket := some tk }) st1).fst.error =
      some "Database connection failed" := by
    simp [submitForm_part000, hl, hcc1]
  have he2 : (submitForm_part000 env2 body (some { reviewScreenshot := some rs, ticket := some tk }) st2).fst.error =
      some "Failed to save form data" := by
    by_cases hreq : memRequiredOk (mkMemRecord body rs tk) = true <;>
      simp [submitForm_part000, hl, hcc2, mongooseSaveMem, hreq, hs2]
  refine ⟨?_, he1, ?_, he2, ?_⟩
  · simp [submitForm_part000, hl, hcc1]
  · by_cases hreq : memRequiredOk (mkMemRecord body rs tk) = true <;>
      simp [submitForm_part000, hl, hcc2, mongooseSaveMem, hreq, hs2]
  · rw [he1, he2]
    decide

/-- A second memory-variant state whose cache already holds a handle. -/
def stCached3 : MemDB := { cachedDb := some 3, records := [], nextId := 0 }

/-- C6 (witness): the distinct payloads at concrete inputs. -/
theorem C6_distinct_failure_payloads_witness :
    (submitForm_part000 envConnFail goodBody (some { reviewScreenshot := some rsFile, ticket := some tkFile }) st0).fst.error =
      some "Database connection failed" ∧
    (submitForm_part000 envSaveFail goodBody (some { reviewScreenshot := some rsFile, ticket := some tkFile }) stCached3).fst.error =
      some "Failed to save form data" := by
  have h := C6_distinct_failure_payloads envConnFail envSaveFail goodBody rsFile tkFile
    st0 stCached3 3 (by decide) (by decide) (by decide) (by decide) (by decide)
  exact ⟨h.2.1, h.2.2.2.1⟩

/-- C8 (counterexample): the claim says in production mode no
dependency-error detail ever appears in a client-facing payload. In
part_000 main (and part_002) the connection-failure, save-failure and
outer catches set `details` unconditionally: here, in production mode, a
connection failure puts the dependency error message straight into the
response details. -/
theorem C8_counterexample :
    envConnFail.nodeEnv = "production" ∧
    (submitForm_part000 envConnFail goodBody (some goodFiles) st0).fst.status = 500 ∧
    (submitForm_part000 envConnFail goodBody (some goodFiles) st0).fst.details =
      some "Database connection failed: connect ECONNREFUSED" := by
  decide

/-- C8 (amended): the development-mode gating the claim describes is
implemented only in part_003 (connection and save catches) and in the
global error middleware of part_000 main and part_003: whenever the
operating mode is not development, every part_003 handler response and
every response of that middleware carries no details. In part_000 main
and part_002 the handler catches include details unconditionally, so the
claim fails there as the counterexample shows. -/
theorem C8_details_gated_part003 (env : Env) (body : Body) (files : Option Files)
    (st : MemDB) (msg : String)
    (hne : env.nodeEnv ≠ "development") :
    (submitForm_part003 env body files st).fst.details = none ∧
    (errMw_part003 env.nodeEnv msg).details = none := by
  constructor
  · rcases files with _ | fs
    · simp [submitForm_part003]
    · by_cases hl : 0 < (missingFields body).length
      · simp [submitForm_part003, hl]
      · rcases hc : connectToDatabase st.cachedDb env.connectOutcome with ⟨c1, eff, res⟩
        rcases res with _ | hdl
        · simp [submitForm_part003, hl, hc, hne]
        · rcases hrs : fs.reviewScreenshot with _ | rs
          · simp [submitForm_part003, hl, hc, hrs]
          · rcases htk : fs.ticket with _ | tk
            · simp [submitForm_part003, hl, hc, hrs, htk]
            · by_cases hreq : memRequiredOk (mkMemRecord body rs tk) = true
              · by_cases hsave : env.saveOk = true
                · simp [submitForm_part003, hl, hc, hrs, htk, mongooseSaveMem, hreq, hsave]
                · simp [submitForm_part003, hl, hc, hrs, htk, mongooseSaveMem, hreq, hsave, hne]
              · simp [submitForm_part003, hl, hc, hrs, htk, mongooseSaveMem, hreq, hne]
  · simp [errMw_part003, hne]

/-- C8 (witness): in production mode a concrete connection failure gets
no details from part_003, and neither does the global middleware. -/
theorem C8_details_gated_part003_witness :
    (submitForm_part003 envConnFail goodBody (some goodFiles) st0).fst.details = none ∧
    (errMw_part003 envConnFail.nodeEnv "boom").details = none :=
  C8_details_gated_part003 envConnFail goodBody (some goodFiles) st0 "boom" (by decide)

/-- C9 (confirmed): a successful part_001 submission answers 201 whose
data payload is exactly the persisted record with the two binary buffers
removed (so the response carries no uploaded bytes), every unsuccessful
part_001 response carries no data at all, and a successful index.ts
submission returns the persisted disk-schema record, which by
construction holds only the stored file paths and no binary content. -/
theorem C9_response_strips_binary (env : Env) (body : Body) (rs tk : UploadedFile)
    (files0 : Option Files) (st : MemDB) (dst : DiskDB) :
    ((submitForm_part001 env body (some { reviewScreenshot := some rs, ticket := some tk }) st).fst.status = 201 →
      (submitForm_part001 env body (some { reviewScreenshot := some rs, ticket := some tk }) st).snd.records =
        withId (mkMemRecord body rs tk) st.nextId :: st.records ∧
      (submitForm_part001 env body (some { reviewScreenshot := some rs, ticket := some tk }) st).fst.data =
        some (stripBinary (withId (mkMemRecord body rs tk) st.nextId)) ∧
      (stripBinary (withId (mkMemRecord body rs tk) st.nextId)).reviewScreenshot = none ∧
      (stripBinary (withId (mkMemRecord body rs tk) st.nextId)).ticket = none) ∧
    ((submitForm_part001 env body files0 st).fst.status ≠ 201 →
      (submitForm_part001 env body files0 st).fst.data = none) ∧
    ((submitForm_index env body (some { reviewScreenshot := some rs, ticket := some tk }) dst).fst.status = 201 →
      (submitForm_index env body (some { reviewScreenshot := some rs, ticket := some tk }) dst).snd.records =
        diskWithId (mkDiskRecord body rs tk) dst.nextId :: dst.records ∧
      (submitForm_index env body (some { reviewScreenshot := some rs, ticket := some tk }) dst).fst.data =
        some (diskWithId (mkDiskRecord body rs tk) dst.nextId)) := by
  refine ⟨?_, ?_, ?_⟩
  · intro h201
    rcases hc : connectToDatabase st.cachedDb env.connectOutcome with ⟨c1, eff, res⟩
    rcases res with _ | hdl
    · rw [submitForm_part001] at h201
      rw [hc] at h201
      simp at h201
    · by_cases hreq : memRequiredOk (mkMemRecord body rs tk) = true
      · by_cases hsave : env.saveOk = true
        · refine ⟨?_, ?_, rfl, rfl⟩ <;>
            simp [submitForm_part001, hc, mongooseSaveMem, hreq, hsave]
        · rw [submitForm_part001] at h201
          rw [hc] at h201
          simp [mongooseSaveMem, hreq, hsave] at h201
      · rw [submitForm_part001] at h201
        rw [hc] at h201
        simp [mongooseSaveMem, hreq] at h201
  · intro hne
    rcases hc : connectToDatabase st.cachedDb env.connectOutcome with ⟨c1, eff, res⟩
    rcases res with _ | hdl
    · simp [submitForm_part001, hc]
    · rcases files0 with _ | fs
      · simp [submitForm_part001, hc]
      · rcases hrs : fs.reviewScreenshot with _ | rs0
        · simp [submitForm_part001, hc, hrs]
        · rcases htk : fs.ticket with _ | tk0
          · simp [submitForm_part001, hc, hrs, htk]
          · by_cases hreq : memRequiredOk (mkMemRecord body rs0 tk0) = true
            · by_cases hsave : env.saveOk = true
              · exfalso
                apply hne
                simp [submitForm_part001, hc, hrs, htk, mongooseSaveMem, hreq, hsave]
              · simp [submitForm_part001, hc, hrs, htk, mongooseSaveMem, hreq, hsave]
            · simp [submitForm_part001, hc, hrs, htk, mongooseSaveMem, hreq]
  · intro h201
    by_cases hreq : diskRequiredOk (mkDiskRecord body rs tk) = true
    · by_cases hsave : env.saveOk = true
      · constructor <;> simp [submitForm_index, mongooseSaveDisk, hreq, hsave]
      · rw [submitForm_index] at h201
        simp [mongooseSaveDisk, hreq, hsave] at h201
    · rw [submitForm_index] at h201
      simp [mongooseSaveDisk, hreq] at h201

/-- C9 (witness): a concrete successful part_001 submission; the data
payload equals the stored record minus the buffers, and both binary
slots of the payload are empty. -/
theorem C9_response_strips_binary_witness :
    (submitForm_part001 envOK goodBody (some { reviewScreenshot := some rsFile, ticket := some tkFile }) st0).fst.data =
      some (stripBinary (withId (mkMemRecord goodBody rsFile tkFile) st0.nextId)) ∧
    (stripBinary (withId (mkMemRecord goodBody rsFile tkFile) st0.nextId)).reviewScreenshot = none ∧
    (stripBinary (withId (mkMemRecord goodBody rsFile tkFile) st0.nextId)).ticket = none := by
  have h := (C9_response_strips_binary envOK goodBody rsFile tkFile
    (some { reviewScreenshot := some rsFile, ticket := some tkFile }) st0 dst0).1 (by decide)
  exact ⟨h.2.1, h.2.2.1, h.2.2.2⟩
